import Mathlib

/-!
Verification of the OBS overlay's connection manager (`OBSConnector` in
`OBSO.py`) against its natural-language specification.

The embedding models the connector's mutable fields (`ws`, `connected`,
`should_run`, `request_id`) as an explicit record, JSON values as a small
inductive type, and every externally visible action (socket writes, status
callbacks, event callbacks, sleeps, log prints) as an element of an effect
trace.  The behaviour of the environment (whether a socket open succeeds,
whether each send succeeds, what each `recv` returns) is supplied as an
explicit environment value, so each Python function becomes a total Lean
function from state and environment to state and trace.
-/

namespace OBSO

/-- JSON values, as produced by `json.dumps` / consumed from `json.loads`.
Objects are association lists of string keys. -/
inductive J where
  | null : J
  | jbool : Bool → J
  | num : Int → J
  | str : String → J
  | arr : List J → J
  | obj : List (String × J) → J

/-- Lookup of a key in a JSON object's field list (first occurrence, as in a
Python dict where keys are unique). -/
def lookupField : List (String × J) → String → Option J
  | [], _ => none
  | (k, v) :: rest, key => if k = key then some v else lookupField rest key

/-- Python `data.get(key)` on a dict, restricted to JSON objects; `none` both
for a missing key and for a non-object (the caller models the non-object
`AttributeError` separately). -/
def jGet (j : J) (k : String) : Option J :=
  match j with
  | .obj fs => lookupField fs k
  | _ => none

/-- Python `key in data` membership test on a dict. -/
def jHas (j : J) (k : String) : Bool :=
  (jGet j k).isSome

/-- Python `data.get(key, default)` on a dict. -/
def jGetD (j : J) (k : String) (dflt : J) : J :=
  match jGet j k with
  | some v => v
  | none => dflt

/-- Test whether a JSON object's field `op` equals the integer `n`
(the Python comparison `data.get("op") == n`; a missing or non-numeric
`op` compares unequal). -/
def isOpVal (j : J) (n : Int) : Bool :=
  match jGet j "op" with
  | some (.num m) => m == n
  | _ => false

/-- Connection configuration read from the config mapping:
`obs_host`, `obs_port`, `obs_password`. -/
structure Config where
  obs_host : String
  obs_port : Nat
  obs_password : String

/-- The mutable fields of an `OBSConnector` instance.  `ws_present` records
whether `self.ws` holds a socket object (it starts out `None`);
`ws_open` whether that socket has not been closed. -/
structure ConnState where
  ws_present : Bool
  ws_open : Bool
  connected : Bool
  should_run : Bool
  request_id : Nat

/-- Externally visible actions of the connector, in program order. -/
inductive Effect where
  | sent : J → Effect
  | sendErr : J → Effect
  | status : String → Effect
  | event : J → J → Effect
  | sleep : Nat → Effect
  | log : String → Effect

/-- The identify frame sent on every fresh socket (OBSO.py line 100). -/
def identifyFrame : J :=
  .obj [("op", .num 1), ("d", .obj [("rpcVersion", .num 1)])]

/-- The authenticate frame sent when a password is configured
(OBSO.py lines 102 to 105). -/
def authFrame (pwd : String) : J :=
  .obj [("op", .num 3),
        ("d", .obj [("rpcVersion", .num 1), ("authentication", .str pwd)])]

/-- The subscribe request frame built by `subscribe_events`
(OBSO.py lines 135 to 142). -/
def subscribeFrame (reqId : Nat) (events : List String) : J :=
  .obj [("op", .num 6),
        ("d", .obj [("requestType", .str "Subscribe"),
                    ("requestId", .str ("sub_" ++ toString reqId)),
                    ("eventSubscriptions", .arr (events.map J.str))])]

/-- The command frame built by `send` (OBSO.py lines 149 to 151). -/
def commandFrame (request_type : String) : J :=
  .obj [("op", .num 6),
        ("d", .obj [("requestType", .str request_type),
                    ("requestId", .str "1")])]

/-- The fixed event subscription list passed to `subscribe_events`
(OBSO.py lines 109 to 113). -/
def subscribedEvents : List String :=
  ["RecordStateChanged", "StreamStateChanged", "ReplayBufferStateChanged"]

/-- Embedding of `OBSConnector.subscribe_events` (OBSO.py lines 132 to 144):
increment `request_id`, then try to send the subscribe frame; a send failure
is caught locally and merely printed. `sendOk` says whether the socket write
succeeds. -/
def subscribe_events (st : ConnState) (events : List String) (sendOk : Bool) :
    ConnState × List Effect :=
  let st1 : ConnState := { st with request_id := st.request_id + 1 }
  if sendOk then
    (st1, [.sent (subscribeFrame st1.request_id events)])
  else
    (st1, [.sendErr (subscribeFrame st1.request_id events),
           .log "Failed to subscribe events:"])

/-- Embedding of `OBSConnector.send` (OBSO.py lines 146 to 154): if
`connected`, write the command frame; a write failure clears `connected` and
reports "Disconnected"; the function is total, so no exception reaches the
caller. If not connected, nothing at all happens. -/
def send (st : ConnState) (request_type : String) (sendOk : Bool) :
    ConnState × List Effect :=
  if st.connected then
    if sendOk then
      (st, [.sent (commandFrame request_type)])
    else
      ({ st with connected := false },
       [.sendErr (commandFrame request_type), .status "Disconnected"])
  else
    (st, [])

/-- Embedding of `OBSConnector.stop` (OBSO.py lines 156 to 162): clear the
run flag and, when a socket object exists, close it, swallowing any error
the close raises (`closeOk` says whether the close succeeds; the result is
the same either way and the function is total). -/
def stop (st : ConnState) (closeOk : Bool) : ConnState × List Effect :=
  let st1 : ConnState := { st with should_run := false }
  if st1.ws_present then
    (if closeOk then ({ st1 with ws_open := false }, [])
     else ({ st1 with ws_open := false }, []))
  else
    (st1, [])

/-- Routing of one decoded inbound frame (OBSO.py lines 120 to 123):
`ok (some (ty, dat))` means the event callback is invoked once with those
arguments, `ok none` means the frame is ignored, `error` means the Python
code raises (attribute access `.get` on a non-dict value). -/
def routeFrame (data : J) : Except Unit (Option (J × J)) :=
  match data with
  | .obj _ =>
    if isOpVal data 5 && jHas data "d" then
      match jGet data "d" with
      | some (.obj dfs) =>
        .ok (some (jGetD (.obj dfs) "eventType" (.str ""),
                   jGetD (.obj dfs) "eventData" (.obj [])))
      | some _ => .error ()
      | none => .ok none
    else
      .ok none
  | _ => .error ()

/-- Outcome of one `self.ws.recv()` call in the receive loop. -/
inductive RecvOutcome where
  | recvErr : RecvOutcome
  | empty : RecvOutcome
  | malformed : RecvOutcome
  | frame : J → RecvOutcome

/-- How the inner receive loop (OBSO.py lines 115 to 123) ended: `failed`
when an exception escaped to the surrounding handler, `starved` when the
supplied outcomes ran out while the loop was still blocked in `recv`. -/
inductive InnerExit where
  | failed : InnerExit
  | starved : InnerExit
deriving DecidableEq

/-- Embedding of the inner receive loop (OBSO.py lines 115 to 123): keep
receiving; an empty message is skipped; a malformed message makes
`json.loads` raise; a recv error or a frame whose processing raises ends the
loop with `failed`. Nothing in the loop body modifies `connected` or
`should_run`, so the `while` condition stays true throughout. -/
def recvLoop : List RecvOutcome → List Effect × InnerExit
  | [] => ([], .starved)
  | .recvErr :: _ => ([], .failed)
  | .empty :: rest => recvLoop rest
  | .malformed :: _ => ([], .failed)
  | .frame d :: rest =>
    match routeFrame d with
    | .error _ => ([], .failed)
    | .ok none => recvLoop rest
    | .ok (some (ty, dat)) =>
      let r := recvLoop rest
      (.event ty dat :: r.1, r.2)

/-- Environment for one pass through the body of the worker's `while`
loop: whether `create_connection`, the identify send, the authenticate send
and the subscribe send succeed, and the sequence of recv outcomes. -/
structure IterEnv where
  openOk : Bool
  identifyOk : Bool
  authOk : Bool
  subscribeOk : Bool
  recvs : List RecvOutcome

/-- How one pass through the worker loop body ended: `failed` means the
uniform `except` handler ran (and the outer loop will retry), `blocked`
means the worker is still inside `recv` with no failure so far. -/
inductive IterExit where
  | failed : IterExit
  | blocked : IterExit
deriving DecidableEq

/-- The uniform `except` handler of the worker loop (OBSO.py lines 124 to
127): clear `connected`, report "Reconnecting...", sleep 5 seconds. -/
def exceptHandler (st : ConnState) (effs : List Effect) :
    ConnState × List Effect × IterExit :=
  ({ st with connected := false },
   effs ++ [.status "Reconnecting...", .sleep 5], .failed)

/-- Embedding of one pass through the body of the worker loop `run`
(OBSO.py lines 94 to 127): open the socket, send identify, optionally send
authenticate, set `connected`, report "Connected", subscribe, then receive
until an error; any exception at any stage falls into `exceptHandler`. -/
def runIteration (cfg : Config) (st : ConnState) (env : IterEnv) :
    ConnState × List Effect × IterExit :=
  if env.openOk then
    let stO : ConnState := { st with ws_present := true, ws_open := true }
    if env.identifyOk then
      let authEffs : List Effect :=
        if cfg.obs_password = "" then []
        else if env.authOk then [.sent (authFrame cfg.obs_password)]
        else [.sendErr (authFrame cfg.obs_password)]
      if cfg.obs_password ≠ "" ∧ env.authOk = false then
        exceptHandler stO ([.sent identifyFrame] ++ authEffs)
      else
        let stC : ConnState := { stO with connected := true }
        let sub := subscribe_events stC subscribedEvents env.subscribeOk
        let rcv := recvLoop env.recvs
        let effs : List Effect :=
          [.sent identifyFrame] ++ authEffs ++ [.status "Connected"]
            ++ sub.2 ++ rcv.1
        match rcv.2 with
        | .failed => exceptHandler sub.1 effs
        | .starved => (sub.1, effs, .blocked)
    else
      exceptHandler stO [.sendErr identifyFrame]
  else
    exceptHandler st []

/-- How the worker loop as a whole ended in the model: `stopped` when the
`while self.should_run` condition was found false, `blocked` when the worker
is parked inside `recv`, `fuelOut` when the supplied list of iteration
environments ran out while the loop would have kept going. -/
inductive LoopExit where
  | stopped : LoopExit
  | blocked : LoopExit
  | fuelOut : LoopExit
deriving DecidableEq

/-- Embedding of the worker loop `while self.should_run` (OBSO.py line 94),
driven by one environment per pass through the body. -/
def runLoop (cfg : Config) : ConnState → List IterEnv →
    ConnState × List Effect × LoopExit
  | st, [] => if st.should_run then (st, [], .fuelOut) else (st, [], .stopped)
  | st, env :: rest =>
    if st.should_run then
      let it := runIteration cfg st env
      match it.2.2 with
      | .failed =>
        let r := runLoop cfg it.1 rest
        (r.1, it.2.1 ++ r.2.1, r.2.2)
      | .blocked => (it.1, it.2.1, .blocked)
    else
      (st, [], .stopped)

/-- Thread-level actions performed by `OBSConnector.connect`
(OBSO.py lines 87 to 130). -/
inductive ThreadAction where
  | clearRun : ThreadAction
  | joinPrev : ThreadAction
  | setRun : ThreadAction
  | startThread : ThreadAction
deriving DecidableEq

/-- The part of the supervisor state `connect` reads and writes:
whether `self.thread` holds a still-alive thread, and the run flag. -/
structure SupState where
  thread_alive : Bool
  should_run : Bool

/-- Embedding of `OBSConnector.connect` (OBSO.py lines 87 to 92 and 129 to
130): when a previous loop thread is alive, clear the run flag, join it,
set the run flag again, and only then start the new loop thread. -/
def connectActions (st : SupState) : SupState × List ThreadAction :=
  if st.thread_alive then
    ({ thread_alive := true, should_run := true },
     [.clearRun, .joinPrev, .setRun, .startThread])
  else
    ({ st with thread_alive := true }, [.startThread])

/-- Number of live worker loops after a thread action: `joinPrev` returns
only once the joined loop has terminated; `startThread` starts one. -/
def applyAction (n : Nat) : ThreadAction → Nat
  | .joinPrev => n - 1
  | .startThread => n + 1
  | _ => n

/-- All prefixes of a list, shortest first. -/
def prefixesOf : List α → List (List α)
  | [] => [[]]
  | x :: xs => [] :: (prefixesOf xs).map (x :: ·)

/-- Is this effect an event-callback invocation? -/
def isEventEff : Effect → Bool
  | .event _ _ => true
  | _ => false

/-- Is this effect a socket write attempt (successful or failed) of a frame
whose `op` field is `n`? -/
def isWriteOp (n : Int) : Effect → Bool
  | .sent f => isOpVal f n
  | .sendErr f => isOpVal f n
  | _ => false

/-- The frame of a successful socket write whose `op` field is 6, if any. -/
def sentOp6 : Effect → Option J
  | .sent f => if isOpVal f 6 then some f else none
  | _ => none

/-- The example inbound event frame from the specification's round-trip
scenario. -/
def evFrame : J :=
  .obj [("op", .num 5),
        ("d", .obj [("eventType", .str "RecordStateChanged"),
                    ("eventData", .obj [("outputActive", .jbool true)])])]

/-- A fresh connector state: no socket yet, not connected, run flag set. -/
def stFresh : ConnState :=
  { ws_present := false, ws_open := false, connected := false,
    should_run := true, request_id := 0 }

/-- A configuration with an empty password. -/
def cfgNoPw : Config := { obs_host := "localhost", obs_port := 4455, obs_password := "" }

/-- A configuration with a non-empty password. -/
def cfgPw : Config := { obs_host := "localhost", obs_port := 4455, obs_password := "hunter2" }

/-- An iteration environment in which the socket open fails. -/
def envOpenFail : IterEnv :=
  { openOk := false, identifyOk := true, authOk := true, subscribeOk := true, recvs := [] }

/-- An iteration environment in which everything succeeds until a malformed
frame arrives. -/
def envMalformed : IterEnv :=
  { openOk := true, identifyOk := true, authOk := true, subscribeOk := true,
    recvs := [.malformed] }

/-- An iteration environment in which the subscribe send fails, then one
event frame arrives, then recv errors. -/
def envSubFail : IterEnv :=
  { openOk := true, identifyOk := true, authOk := true, subscribeOk := false,
    recvs := [.frame evFrame, .recvErr] }

/-- An iteration environment in which everything succeeds and the worker is
left blocked waiting for the next frame. -/
def envIdle : IterEnv :=
  { openOk := true, identifyOk := true, authOk := true, subscribeOk := true,
    recvs := [] }

/-- An iteration environment in which only the subscribe send fails and the
worker is left blocked waiting for the next frame. -/
def envSubIdle : IterEnv :=
  { openOk := true, identifyOk := true, authOk := true, subscribeOk := false,
    recvs := [] }

/-! Basic lemmas about the individual operations. -/

theorem subscribe_events_fst (st : ConnState) (events : List String) (ok : Bool) :
    (subscribe_events st events ok).1 = { st with request_id := st.request_id + 1 } := by
  cases ok <;> rfl

theorem subscribe_events_no_event (st : ConnState) (events : List String) (ok : Bool) :
    ∀ e ∈ (subscribe_events st events ok).2, isEventEff e = false := by
  cases ok <;> simp [subscribe_events, isEventEff]

theorem subscribe_events_no_status (st : ConnState) (events : List String) (ok : Bool) :
    ∀ s, Effect.status s ∉ (subscribe_events st events ok).2 := by
  cases ok <;> simp [subscribe_events]

theorem recvLoop_all_events (rs : List RecvOutcome) :
    ∀ e ∈ (recvLoop rs).1, isEventEff e = true := by
  induction rs with
  | nil => simp [recvLoop]
  | cons r rest ih =>
    cases r with
    | recvErr => simp [recvLoop]
    | empty => simpa [recvLoop] using ih
    | malformed => simp [recvLoop]
    | frame d =>
      intro e he
      simp only [recvLoop] at he
      cases hp : routeFrame d with
      | error u => simp [hp] at he
      | ok o =>
        cases o with
        | none => exact ih e (by simpa [hp] using he)
        | some p =>
          rcases p with ⟨ty, dat⟩
          simp [hp] at he
          rcases he with h | h
          · simp [h, isEventEff]
          · exact ih e h

theorem recvLoop_no_status (rs : List RecvOutcome) :
    ∀ s, Effect.status s ∉ (recvLoop rs).1 := by
  intro s hmem
  have h := recvLoop_all_events rs (Effect.status s) hmem
  simp [isEventEff] at h

/-! Scenario lemmas characterising one pass of the worker loop body. -/

theorem runIteration_open_fail (cfg : Config) (st : ConnState) (env : IterEnv)
    (h : env.openOk = false) :
    runIteration cfg st env = exceptHandler st [] := by
  simp [runIteration, h]

theorem runIteration_identify_fail (cfg : Config) (st : ConnState) (env : IterEnv)
    (ho : env.openOk = true) (hi : env.identifyOk = false) :
    runIteration cfg st env =
      exceptHandler { st with ws_present := true, ws_open := true }
        [.sendErr identifyFrame] := by
  simp [runIteration, ho, hi]

theorem runIteration_auth_fail (cfg : Config) (st : ConnState) (env : IterEnv)
    (ho : env.openOk = true) (hi : env.identifyOk = true)
    (hp : cfg.obs_password ≠ "") (ha : env.authOk = false) :
    runIteration cfg st env =
      exceptHandler { st with ws_present := true, ws_open := true }
        [.sent identifyFrame, .sendErr (authFrame cfg.obs_password)] := by
  simp [runIteration, ho, hi, hp, ha]

theorem runIteration_session_failed (cfg : Config) (st : ConnState) (env : IterEnv)
    (ho : env.openOk = true) (hi : env.identifyOk = true)
    (ha : cfg.obs_password = "" ∨ env.authOk = true)
    (hr : (recvLoop env.recvs).2 = InnerExit.failed) :
    runIteration cfg st env =
      exceptHandler
        { st with ws_present := true, ws_open := true, connected := true,
                  request_id := st.request_id + 1 }
        ([Effect.sent identifyFrame]
          ++ (if cfg.obs_password = "" then []
              else [Effect.sent (authFrame cfg.obs_password)])
          ++ [Effect.status "Connected"]
          ++ (subscribe_events
                { st with ws_present := true, ws_open := true, connected := true }
                subscribedEvents env.subscribeOk).2
          ++ (recvLoop env.recvs).1) := by
  rcases ha with h | h <;>
    simp [runIteration, ho, hi, h, hr, subscribe_events_fst]

theorem runIteration_session_blocked (cfg : Config) (st : ConnState) (env : IterEnv)
    (ho : env.openOk = true) (hi : env.identifyOk = true)
    (ha : cfg.obs_password = "" ∨ env.authOk = true)
    (hr : (recvLoop env.recvs).2 = InnerExit.starved) :
    runIteration cfg st env =
      ({ st with ws_present := true, ws_open := true, connected := true,
                 request_id := st.request_id + 1 },
       [Effect.sent identifyFrame]
         ++ (if cfg.obs_password = "" then []
             else [Effect.sent (authFrame cfg.obs_password)])
         ++ [Effect.status "Connected"]
         ++ (subscribe_events
               { st with ws_present := true, ws_open := true, connected := true }
               subscribedEvents env.subscribeOk).2
         ++ (recvLoop env.recvs).1,
       IterExit.blocked) := by
  rcases ha with h | h <;>
    simp [runIteration, ho, hi, h, hr, subscribe_events_fst]

theorem runIteration_shape (cfg : Config) (st : ConnState) (env : IterEnv) :
    (∃ st0 effs, runIteration cfg st env = exceptHandler st0 effs ∧
       st0.should_run = st.should_run) ∨
    ((runIteration cfg st env).2.2 = IterExit.blocked ∧
     (runIteration cfg st env).1.should_run = st.should_run ∧
     (runIteration cfg st env).1.connected = true) := by
  by_cases ho : env.openOk = true
  · by_cases hi : env.identifyOk = true
    · by_cases hpa : cfg.obs_password = "" ∨ env.authOk = true
      · cases hr : (recvLoop env.recvs).2 with
        | failed =>
          left
          exact ⟨_, _, runIteration_session_failed cfg st env ho hi hpa hr, rfl⟩
        | starved =>
          right
          rw [runIteration_session_blocked cfg st env ho hi hpa hr]
          exact ⟨rfl, rfl, rfl⟩
      · push_neg at hpa
        left
        exact ⟨_, _,
          runIteration_auth_fail cfg st env ho hi hpa.1 (by simpa using hpa.2), rfl⟩
    · left
      exact ⟨_, _, runIteration_identify_fail cfg st env ho (by simpa using hi), rfl⟩
  · left
    exact ⟨_, _, runIteration_open_fail cfg st env (by simpa using ho), rfl⟩

theorem runIteration_preserves_should_run (cfg : Config) (st : ConnState) (env : IterEnv) :
    (runIteration cfg st env).1.should_run = st.should_run := by
  rcases runIteration_shape cfg st env with ⟨st0, effs, heq, hsr⟩ | ⟨_, hsr, _⟩
  · rw [heq]; exact hsr
  · exact hsr

theorem runIteration_failed_props (cfg : Config) (st : ConnState) (env : IterEnv)
    (h : (runIteration cfg st env).2.2 = IterExit.failed) :
    (runIteration cfg st env).1.connected = false ∧
    ∃ pre, (runIteration cfg st env).2.1 =
      pre ++ [Effect.status "Reconnecting...", Effect.sleep 5] := by
  rcases runIteration_shape cfg st env with ⟨st0, effs, heq, _⟩ | ⟨hb, _, _⟩
  · rw [heq]
    exact ⟨rfl, effs, rfl⟩
  · rw [hb] at h
    cases h

theorem runIteration_blocked_connected (cfg : Config) (st : ConnState) (env : IterEnv)
    (h : (runIteration cfg st env).2.2 = IterExit.blocked) :
    (runIteration cfg st env).1.connected = true := by
  rcases runIteration_shape cfg st env with ⟨st0, effs, heq, _⟩ | ⟨_, _, hc⟩
  · rw [heq] at h
    cases h
  · exact hc

/-! Lemmas about the worker loop as a whole. -/

theorem runLoop_not_stopped (cfg : Config) :
    ∀ (envs : List IterEnv) (st : ConnState), st.should_run = true →
      (runLoop cfg st envs).2.2 ≠ LoopExit.stopped := by
  intro envs
  induction envs with
  | nil =>
    intro st h
    simp [runLoop, h]
  | cons env rest ih =>
    intro st h
    simp only [runLoop, h, if_true]
    cases hx : (runIteration cfg st env).2.2 with
    | failed =>
      have hsr : (runIteration cfg st env).1.should_run = true := by
        rw [runIteration_preserves_should_run]; exact h
      simpa using ih (runIteration cfg st env).1 hsr
    | blocked => simp

theorem runLoop_cons_failed (cfg : Config) (st : ConnState) (env : IterEnv)
    (rest : List IterEnv) (h : st.should_run = true)
    (hf : (runIteration cfg st env).2.2 = IterExit.failed) :
    runLoop cfg st (env :: rest) =
      ((runLoop cfg (runIteration cfg st env).1 rest).1,
       (runIteration cfg st env).2.1
         ++ (runLoop cfg (runIteration cfg st env).1 rest).2.1,
       (runLoop cfg (runIteration cfg st env).1 rest).2.2) := by
  simp [runLoop, h, hf]

theorem runIteration_status (cfg : Config) (st : ConnState) (env : IterEnv) (s : String)
    (hmem : Effect.status s ∈ (runIteration cfg st env).2.1) :
    s = "Connected" ∨ s = "Reconnecting..." := by
  by_cases ho : env.openOk = true
  · by_cases hi : env.identifyOk = true
    · by_cases hp : cfg.obs_password = ""
      · cases hr : (recvLoop env.recvs).2 with
        | failed =>
          rw [runIteration_session_failed cfg st env ho hi (Or.inl hp) hr] at hmem
          simp [exceptHandler, hp] at hmem
          rcases hmem with h | h | h | h
          · exact Or.inl h
          · exact absurd h (subscribe_events_no_status _ _ _ s)
          · exact absurd h (recvLoop_no_status _ s)
          · exact Or.inr h
        | starved =>
          rw [runIteration_session_blocked cfg st env ho hi (Or.inl hp) hr] at hmem
          simp [hp] at hmem
          rcases hmem with h | h | h
          · exact Or.inl h
          · exact absurd h (subscribe_events_no_status _ _ _ s)
          · exact absurd h (recvLoop_no_status _ s)
      · by_cases hao : env.authOk = true
        · cases hr : (recvLoop env.recvs).2 with
          | failed =>
            rw [runIteration_session_failed cfg st env ho hi (Or.inr hao) hr] at hmem
            simp [exceptHandler, hp] at hmem
            rcases hmem with h | h | h | h
            · exact Or.inl h
            · exact absurd h (subscribe_events_no_status _ _ _ s)
            · exact absurd h (recvLoop_no_status _ s)
            · exact Or.inr h
          | starved =>
            rw [runIteration_session_blocked cfg st env ho hi (Or.inr hao) hr] at hmem
            simp [hp] at hmem
            rcases hmem with h | h | h
            · exact Or.inl h
            · exact absurd h (subscribe_events_no_status _ _ _ s)
            · exact absurd h (recvLoop_no_status _ s)
        · rw [runIteration_auth_fail cfg st env ho hi hp (by simpa using hao)] at hmem
          simp [exceptHandler] at hmem
          exact Or.inr hmem
    · rw [runIteration_identify_fail cfg st env ho (by simpa using hi)] at hmem
      simp [exceptHandler] at hmem
      exact Or.inr hmem
  · rw [runIteration_open_fail cfg st env (by simpa using ho)] at hmem
    simp [exceptHandler] at hmem
    exact Or.inr hmem

theorem runLoop_status (cfg : Config) :
    ∀ (envs : List IterEnv) (st : ConnState) (s : String),
      Effect.status s ∈ (runLoop cfg st envs).2.1 →
      s = "Connected" ∨ s = "Reconnecting..." := by
  intro envs
  induction envs with
  | nil =>
    intro st s hmem
    by_cases h : st.should_run = true <;> simp [runLoop, h] at hmem
  | cons env rest ih =>
    intro st s hmem
    by_cases h : st.should_run = true
    · simp only [runLoop, h, if_true] at hmem
      cases hx : (runIteration cfg st env).2.2 with
      | failed =>
        simp only [hx] at hmem
        simp only [List.mem_append] at hmem
        rcases hmem with hmem | hmem
        · exact runIteration_status cfg st env s hmem
        · exact ih _ s hmem
      | blocked =>
        simp only [hx] at hmem
        exact runIteration_status cfg st env s hmem
    · simp [runLoop, h] at hmem

/-! Frame-classification lemmas used for counting socket writes. -/

theorem isOpVal_identify1 : isOpVal identifyFrame 1 = true := rfl

theorem isOpVal_identify3 : isOpVal identifyFrame 3 = false := rfl

theorem isOpVal_identify6 : isOpVal identifyFrame 6 = false := rfl

theorem isOpVal_auth1 (pwd : String) : isOpVal (authFrame pwd) 1 = false := rfl

theorem isOpVal_auth3 (pwd : String) : isOpVal (authFrame pwd) 3 = true := rfl

theorem isOpVal_auth6 (pwd : String) : isOpVal (authFrame pwd) 6 = false := rfl

theorem isOpVal_subscribe1 (m : Nat) (events : List String) :
    isOpVal (subscribeFrame m events) 1 = false := rfl

theorem isOpVal_subscribe3 (m : Nat) (events : List String) :
    isOpVal (subscribeFrame m events) 3 = false := rfl

theorem isOpVal_subscribe6 (m : Nat) (events : List String) :
    isOpVal (subscribeFrame m events) 6 = true := rfl

theorem recvLoop_mem_event (rs : List RecvOutcome) :
    ∀ e ∈ (recvLoop rs).1, ∃ ty dat, e = Effect.event ty dat := by
  intro e he
  have h2 := recvLoop_all_events rs e he
  cases e with
  | sent f => exact absurd h2 (by simp [isEventEff])
  | sendErr f => exact absurd h2 (by simp [isEventEff])
  | status s => exact absurd h2 (by simp [isEventEff])
  | event ty dat => exact ⟨ty, dat, rfl⟩
  | sleep k => exact absurd h2 (by simp [isEventEff])
  | log m => exact absurd h2 (by simp [isEventEff])

theorem recv_countP_writeOp (rs : List RecvOutcome) (n : Int) :
    ((recvLoop rs).1).countP (isWriteOp n) = 0 := by
  rw [List.countP_eq_zero]
  intro e he
  rcases recvLoop_mem_event rs e he with ⟨ty, dat, rfl⟩
  simp [isWriteOp]

theorem sub_countP_writeOp1 (st : ConnState) (events : List String) (ok : Bool) :
    ((subscribe_events st events ok).2).countP (isWriteOp 1) = 0 := by
  cases ok <;>
    simp [subscribe_events, isWriteOp, isOpVal_subscribe1, List.countP_cons]

theorem sub_countP_writeOp3 (st : ConnState) (events : List String) (ok : Bool) :
    ((subscribe_events st events ok).2).countP (isWriteOp 3) = 0 := by
  cases ok <;>
    simp [subscribe_events, isWriteOp, isOpVal_subscribe3, List.countP_cons]

theorem sub_countP_event (st : ConnState) (events : List String) (ok : Bool) :
    ((subscribe_events st events ok).2).countP isEventEff = 0 := by
  cases ok <;> simp [subscribe_events, isEventEff, List.countP_cons]

theorem recv_filterMap_sentOp6 (rs : List RecvOutcome) :
    ((recvLoop rs).1).filterMap sentOp6 = [] := by
  rw [List.filterMap_eq_nil_iff]
  intro e he
  rcases recvLoop_mem_event rs e he with ⟨ty, dat, rfl⟩
  rfl

/-! Claim theorems. -/

/-- C1: every failing pass of the worker loop body (socket open, handshake or
receive phase raising) is caught inside the body: the connected flag is
cleared, the trace ends with the "Reconnecting..." status notification and a
fixed 5-second sleep, the run flag is untouched, and when the run flag is set
the outer loop goes on to the next pass; the loop never exits with the
`stopped` outcome unless the run flag has been cleared externally. -/
theorem claim_C1 (cfg : Config) (st : ConnState) (env : IterEnv)
    (envs : List IterEnv)
    (h : (runIteration cfg st env).2.2 = IterExit.failed) :
    (runIteration cfg st env).1.connected = false ∧
    (∃ pre, (runIteration cfg st env).2.1 =
       pre ++ [Effect.status "Reconnecting...", Effect.sleep 5]) ∧
    (runIteration cfg st env).1.should_run = st.should_run ∧
    (st.should_run = true →
       runLoop cfg st (env :: envs) =
         ((runLoop cfg (runIteration cfg st env).1 envs).1,
          (runIteration cfg st env).2.1
            ++ (runLoop cfg (runIteration cfg st env).1 envs).2.1,
          (runLoop cfg (runIteration cfg st env).1 envs).2.2)) ∧
    (st.should_run = true →
       (runLoop cfg st (env :: envs)).2.2 ≠ LoopExit.stopped) :=
  ⟨(runIteration_failed_props cfg st env h).1,
   (runIteration_failed_props cfg st env h).2,
   runIteration_preserves_should_run cfg st env,
   fun hr => runLoop_cons_failed cfg st env envs hr h,
   fun hr => runLoop_not_stopped cfg (env :: envs) st hr⟩

/-- Witness for C1 at a concrete failing pass: the socket open fails. -/
theorem claim_C1_witness :
    (runIteration cfgNoPw stFresh envOpenFail).1.connected = false ∧
    (∃ pre, (runIteration cfgNoPw stFresh envOpenFail).2.1 =
       pre ++ [Effect.status "Reconnecting...", Effect.sleep 5]) ∧
    (runLoop cfgNoPw stFresh [envOpenFail]).2.2 ≠ LoopExit.stopped :=
  ⟨(claim_C1 cfgNoPw stFresh envOpenFail [] rfl).1,
   (claim_C1 cfgNoPw stFresh envOpenFail [] rfl).2.1,
   (claim_C1 cfgNoPw stFresh envOpenFail [] rfl).2.2.2.2 rfl⟩

/-- C2: when `connect` is called while a previous loop thread is alive, it
clears the run flag, joins that thread to termination, sets the run flag
again and only then starts the new loop thread; counting live loops along
every prefix of the action sequence, the count never exceeds one and ends at
exactly one. -/
theorem claim_C2 (st : SupState) :
    (st.thread_alive = true →
       connectActions st =
         ({ thread_alive := true, should_run := true },
          [ThreadAction.clearRun, ThreadAction.joinPrev, ThreadAction.setRun,
           ThreadAction.startThread])) ∧
    (∀ p ∈ prefixesOf (connectActions st).2,
       p.foldl applyAction (if st.thread_alive then 1 else 0) ≤ 1) ∧
    (connectActions st).2.foldl applyAction (if st.thread_alive then 1 else 0) = 1 := by
  cases h : st.thread_alive with
  | false =>
    refine ⟨fun hc => (nomatch hc), ?_, ?_⟩
    · intro p hp
      simp [connectActions, h, prefixesOf] at hp
      rcases hp with hp | hp <;> simp [hp, applyAction]
    · simp [connectActions, h, applyAction]
  | true =>
    refine ⟨fun _ => (by simp [connectActions, h]), ?_, ?_⟩
    · intro p hp
      simp [connectActions, h, prefixesOf] at hp
      rcases hp with hp | hp | hp | hp | hp <;> simp [hp, applyAction]
    · simp [connectActions, h, applyAction]

/-- Witness for C2 at a concrete supervisor state with a live prior loop. -/
theorem claim_C2_witness :
    connectActions { thread_alive := true, should_run := false } =
      ({ thread_alive := true, should_run := true },
       [ThreadAction.clearRun, ThreadAction.joinPrev, ThreadAction.setRun,
        ThreadAction.startThread]) :=
  (claim_C2 { thread_alive := true, should_run := false }).1 rfl

/-- C3: when connected, `send` writes exactly the op-6 command frame for the
requested type; a failed write clears the connected flag and notifies the
status sink "Disconnected" (the function is total, so nothing propagates to
the caller); when not connected, the call produces no effects at all. -/
theorem claim_C3 (st : ConnState) (ty : String) (sendOk : Bool) :
    (st.connected = true → sendOk = true →
       send st ty sendOk = (st, [Effect.sent (commandFrame ty)]) ∧
       isOpVal (commandFrame ty) 6 = true) ∧
    (st.connected = true → sendOk = false →
       send st ty sendOk =
         ({ st with connected := false },
          [Effect.sendErr (commandFrame ty), Effect.status "Disconnected"])) ∧
    (st.connected = false → send st ty sendOk = (st, [])) := by
  refine ⟨fun hc hok => ⟨by simp [send, hc, hok], rfl⟩,
          fun hc hok => by simp [send, hc, hok],
          fun hc => by simp [send, hc]⟩

/-- Witness for C3 at concrete states: a connected send that succeeds, a
connected send that fails, and a disconnected send. -/
theorem claim_C3_witness :
    send { stFresh with connected := true } "ToggleRecord" true =
      ({ stFresh with connected := true },
       [Effect.sent (commandFrame "ToggleRecord")]) ∧
    send { stFresh with connected := true } "ToggleRecord" false =
      ({ stFresh with connected := false },
       [Effect.sendErr (commandFrame "ToggleRecord"),
        Effect.status "Disconnected"]) ∧
    send stFresh "ToggleRecord" true = (stFresh, []) :=
  ⟨((claim_C3 { stFresh with connected := true } "ToggleRecord" true).1 rfl rfl).1,
   (claim_C3 { stFresh with connected := true } "ToggleRecord" false).2.1 rfl rfl,
   (claim_C3 stFresh "ToggleRecord" true).2.2 rfl⟩

/-- C4: on every pass whose socket open succeeds, exactly one identify write
attempt (`op` 1) occurs and, when it succeeds, it is the first effect of the
pass; with an empty configured password no authenticate frame (`op` 3) is
ever written; with a non-empty password exactly one authenticate write
attempt occurs after the identify send, and when it succeeds the first two
effects are precisely the identify send and the authenticate send. -/
theorem claim_C4 (cfg : Config) (st : ConnState) (env : IterEnv)
    (hOpen : env.openOk = true) :
    ((runIteration cfg st env).2.1.countP (isWriteOp 1) = 1) ∧
    (env.identifyOk = true →
       (runIteration cfg st env).2.1.head? = some (Effect.sent identifyFrame)) ∧
    (cfg.obs_password = "" →
       (runIteration cfg st env).2.1.countP (isWriteOp 3) = 0) ∧
    (cfg.obs_password ≠ "" → env.identifyOk = true →
       ((runIteration cfg st env).2.1.countP (isWriteOp 3) = 1 ∧
        (env.authOk = true →
           (runIteration cfg st env).2.1.take 2 =
             [Effect.sent identifyFrame,
              Effect.sent (authFrame cfg.obs_password)]))) := by
  by_cases hi : env.identifyOk = true
  · by_cases hp : cfg.obs_password = ""
    · cases hr : (recvLoop env.recvs).2 with
      | failed =>
        rw [runIteration_session_failed cfg st env hOpen hi (Or.inl hp) hr]
        simp [exceptHandler, hp, List.countP_append, List.countP_cons,
              isWriteOp, isOpVal_identify1, isOpVal_identify3,
              sub_countP_writeOp1, sub_countP_writeOp3, recv_countP_writeOp]
      | starved =>
        rw [runIteration_session_blocked cfg st env hOpen hi (Or.inl hp) hr]
        simp [hp, List.countP_append, List.countP_cons,
              isWriteOp, isOpVal_identify1, isOpVal_identify3,
              sub_countP_writeOp1, sub_countP_writeOp3, recv_countP_writeOp]
    · by_cases hao : env.authOk = true
      · cases hr : (recvLoop env.recvs).2 with
        | failed =>
          rw [runIteration_session_failed cfg st env hOpen hi (Or.inr hao) hr]
          simp [exceptHandler, hp, List.countP_append, List.countP_cons,
                isWriteOp, isOpVal_identify1, isOpVal_identify3,
                isOpVal_auth1, isOpVal_auth3,
                sub_countP_writeOp1, sub_countP_writeOp3, recv_countP_writeOp]
        | starved =>
          rw [runIteration_session_blocked cfg st env hOpen hi (Or.inr hao) hr]
          simp [hp, List.countP_append, List.countP_cons,
                isWriteOp, isOpVal_identify1, isOpVal_identify3,
                isOpVal_auth1, isOpVal_auth3,
                sub_countP_writeOp1, sub_countP_writeOp3, recv_countP_writeOp]
      · rw [runIteration_auth_fail cfg st env hOpen hi hp (by simpa using hao)]
        simp [exceptHandler, hp, hao, List.countP_cons,
              isWriteOp, isOpVal_identify1, isOpVal_identify3,
              isOpVal_auth1, isOpVal_auth3]
  · rw [runIteration_identify_fail cfg st env hOpen (by simpa using hi)]
    simp [exceptHandler, hi, List.countP_cons,
          isWriteOp, isOpVal_identify1, isOpVal_identify3]

/-- Witness for C4 at a concrete pass with a non-empty password and all
sends succeeding: one identify attempt, one authenticate attempt, and the
first two effects are the identify and authenticate sends. -/
theorem claim_C4_witness :
    ((runIteration cfgPw stFresh envMalformed).2.1.countP (isWriteOp 1) = 1) ∧
    ((runIteration cfgPw stFresh envMalformed).2.1.head? =
       some (Effect.sent identifyFrame)) ∧
    ((runIteration cfgPw stFresh envMalformed).2.1.countP (isWriteOp 3) = 1) ∧
    ((runIteration cfgPw stFresh envMalformed).2.1.take 2 =
       [Effect.sent identifyFrame, Effect.sent (authFrame "hunter2")]) :=
  ⟨(claim_C4 cfgPw stFresh envMalformed rfl).1,
   (claim_C4 cfgPw stFresh envMalformed rfl).2.1 rfl,
   ((claim_C4 cfgPw stFresh envMalformed rfl).2.2.2 (by simp [cfgPw]) rfl).1,
   ((claim_C4 cfgPw stFresh envMalformed rfl).2.2.2 (by simp [cfgPw]) rfl).2 rfl⟩

/-- C5: on every pass with a successful handshake and a successful subscribe
send, the only op-6 frame successfully written during the pass is the single
subscribe request for request id one more than the connector's, whose
payload lists exactly the three configured event names in order; hence it
precedes any other outbound command of the session. -/
theorem claim_C5 (cfg : Config) (st : ConnState) (env : IterEnv)
    (hOpen : env.openOk = true) (hId : env.identifyOk = true)
    (hAuth : cfg.obs_password = "" ∨ env.authOk = true)
    (hSub : env.subscribeOk = true) :
    (runIteration cfg st env).2.1.filterMap sentOp6 =
      [subscribeFrame (st.request_id + 1) subscribedEvents] ∧
    jGet (subscribeFrame (st.request_id + 1) subscribedEvents) "d" =
      some (J.obj
        [("requestType", J.str "Subscribe"),
         ("requestId", J.str ("sub_" ++ toString (st.request_id + 1))),
         ("eventSubscriptions",
          J.arr [J.str "RecordStateChanged", J.str "StreamStateChanged",
                 J.str "ReplayBufferStateChanged"])]) := by
  refine ⟨?_, rfl⟩
  have hsub2 : (subscribe_events
      { st with ws_present := true, ws_open := true, connected := true }
      subscribedEvents env.subscribeOk).2 =
      [Effect.sent (subscribeFrame (st.request_id + 1) subscribedEvents)] := by
    simp [subscribe_events, hSub]
  cases hr : (recvLoop env.recvs).2 with
  | failed =>
    rw [runIteration_session_failed cfg st env hOpen hId hAuth hr]
    rcases hAuth with hp | hao
    · simp [exceptHandler, hp, hsub2, List.filterMap_append,
            recv_filterMap_sentOp6, sentOp6,
            isOpVal_identify6, isOpVal_subscribe6]
    · by_cases hp : cfg.obs_password = "" <;>
        simp [exceptHandler, hp, hsub2, List.filterMap_append,
              recv_filterMap_sentOp6, sentOp6,
              isOpVal_identify6, isOpVal_auth6, isOpVal_subscribe6]
  | starved =>
    rw [runIteration_session_blocked cfg st env hOpen hId hAuth hr]
    rcases hAuth with hp | hao
    · simp [hp, hsub2, List.filterMap_append,
            recv_filterMap_sentOp6, sentOp6,
            isOpVal_identify6, isOpVal_subscribe6]
    · by_cases hp : cfg.obs_password = "" <;>
        simp [hp, hsub2, List.filterMap_append,
              recv_filterMap_sentOp6, sentOp6,
              isOpVal_identify6, isOpVal_auth6, isOpVal_subscribe6]

/-- Witness for C5 at a concrete pass with empty password and a successful
subscribe send. -/
theorem claim_C5_witness :
    (runIteration cfgNoPw stFresh envMalformed).2.1.filterMap sentOp6 =
      [subscribeFrame 1 subscribedEvents] ∧
    jGet (subscribeFrame 1 subscribedEvents) "d" =
      some (J.obj
        [("requestType", J.str "Subscribe"),
         ("requestId", J.str ("sub_" ++ toString 1)),
         ("eventSubscriptions",
          J.arr [J.str "RecordStateChanged", J.str "StreamStateChanged",
                 J.str "ReplayBufferStateChanged"])]) :=
  claim_C5 cfgNoPw stFresh envMalformed rfl rfl (Or.inl rfl) rfl

/-- C6 counterexample: the claim asserts that every frame with op 5 and a
`d` field yields exactly one callback invocation. On a frame whose `d` value
is not a mapping the code's attribute access `data["d"].get` raises instead:
no callback fires and the receive loop dies into the uniform handler. -/
theorem claim_C6_counterexample :
    routeFrame (J.obj [("op", J.num 5), ("d", J.num 7)]) = Except.error () ∧
    recvLoop [RecvOutcome.frame (J.obj [("op", J.num 5), ("d", J.num 7)])] =
      ([], InnerExit.failed) :=
  ⟨rfl, rfl⟩

/-- C6 amended: for every decoded inbound object frame whose `op` is 5 and
whose `d` field holds a mapping, the event callback is invoked exactly once,
with the frame's `eventType` (default empty string) and `eventData` (default
empty mapping) — as on the specification's concrete round-trip example —
while frames with any other op value or without a `d` field trigger no
callback and are otherwise ignored; an op-5 frame whose `d` value is not a
mapping instead raises with no callback (the counterexample's case). -/
theorem claim_C6 (fs dfs : List (String × J)) (rest : List RecvOutcome) :
    (isOpVal (J.obj fs) 5 = true → jGet (J.obj fs) "d" = some (J.obj dfs) →
       routeFrame (J.obj fs) =
         Except.ok (some (jGetD (J.obj dfs) "eventType" (J.str ""),
                          jGetD (J.obj dfs) "eventData" (J.obj []))) ∧
       (recvLoop (RecvOutcome.frame (J.obj fs) :: rest)).1 =
         Effect.event (jGetD (J.obj dfs) "eventType" (J.str ""))
             (jGetD (J.obj dfs) "eventData" (J.obj []))
           :: (recvLoop rest).1 ∧
       (recvLoop (RecvOutcome.frame (J.obj fs) :: rest)).2 =
         (recvLoop rest).2) ∧
    (isOpVal (J.obj fs) 5 = false ∨ jHas (J.obj fs) "d" = false →
       routeFrame (J.obj fs) = Except.ok none ∧
       recvLoop (RecvOutcome.frame (J.obj fs) :: rest) = recvLoop rest) ∧
    (routeFrame evFrame =
       Except.ok (some (J.str "RecordStateChanged",
                        J.obj [("outputActive", J.jbool true)]))) ∧
    (recvLoop [RecvOutcome.frame evFrame] =
       ([Effect.event (J.str "RecordStateChanged")
           (J.obj [("outputActive", J.jbool true)])], InnerExit.starved)) := by
  refine ⟨?_, ?_, rfl, rfl⟩
  · intro h5 hd
    have hroute : routeFrame (J.obj fs) =
        Except.ok (some (jGetD (J.obj dfs) "eventType" (J.str ""),
                         jGetD (J.obj dfs) "eventData" (J.obj []))) := by
      simp [routeFrame, h5, jHas, hd]
    refine ⟨hroute, ?_, ?_⟩ <;> simp [recvLoop, hroute]
  · intro h
    have hroute : routeFrame (J.obj fs) = Except.ok none := by
      rcases h with h | h <;> simp [routeFrame, h]
    exact ⟨hroute, by simp [recvLoop, hroute]⟩

/-- Witness for C6 at concrete frames: the example op-5 frame yields exactly
one callback invocation, and an op-3 object frame is ignored. -/
theorem claim_C6_witness :
    (routeFrame evFrame =
       Except.ok (some (J.str "RecordStateChanged",
                        J.obj [("outputActive", J.jbool true)])) ∧
     (recvLoop [RecvOutcome.frame evFrame]).1 =
       [Effect.event (J.str "RecordStateChanged")
          (J.obj [("outputActive", J.jbool true)])]) ∧
    (routeFrame (J.obj [("op", J.num 3), ("d", J.obj [])]) = Except.ok none) :=
  ⟨⟨((claim_C6
        [("op", J.num 5),
         ("d", J.obj [("eventType", J.str "RecordStateChanged"),
                      ("eventData", J.obj [("outputActive", J.jbool true)])])]
        [("eventType", J.str "RecordStateChanged"),
         ("eventData", J.obj [("outputActive", J.jbool true)])]
        []).1 rfl rfl).1,
    (((claim_C6
        [("op", J.num 5),
         ("d", J.obj [("eventType", J.str "RecordStateChanged"),
                      ("eventData", J.obj [("outputActive", J.jbool true)])])]
        [("eventType", J.str "RecordStateChanged"),
         ("eventData", J.obj [("outputActive", J.jbool true)])]
        []).1 rfl rfl).2).1⟩,
   ((claim_C6 [("op", J.num 3), ("d", J.obj [])] [] []).2.1 (Or.inl rfl)).1⟩

/-- C7: a non-empty inbound frame that is not valid JSON makes the decode
raise; the exception is caught by the worker's uniform handler with no event
callback for any frame of the pass, the connected flag is cleared, the trace
ends with the "Reconnecting..." notification and the backoff sleep, and the
outer loop does not stop. -/
theorem claim_C7 (cfg : Config) (st : ConnState) (env : IterEnv)
    (rest : List RecvOutcome) (envs : List IterEnv)
    (hOpen : env.openOk = true) (hId : env.identifyOk = true)
    (hAuth : cfg.obs_password = "" ∨ env.authOk = true)
    (hRecvs : env.recvs = RecvOutcome.malformed :: rest) :
    (runIteration cfg st env).2.2 = IterExit.failed ∧
    (runIteration cfg st env).1.connected = false ∧
    (runIteration cfg st env).2.1.countP isEventEff = 0 ∧
    (∃ pre, (runIteration cfg st env).2.1 =
       pre ++ [Effect.status "Reconnecting...", Effect.sleep 5]) ∧
    (st.should_run = true →
       (runLoop cfg st (env :: envs)).2.2 ≠ LoopExit.stopped) := by
  have hr : recvLoop env.recvs = ([], InnerExit.failed) := by
    rw [hRecvs]; rfl
  have hfail := runIteration_session_failed cfg st env hOpen hId hAuth (by rw [hr])
  refine ⟨?_, ?_, ?_, ?_, fun hrf => runLoop_not_stopped cfg (env :: envs) st hrf⟩
  · rw [hfail]; rfl
  · rw [hfail]; rfl
  · rw [hfail, hr]
    by_cases hp : cfg.obs_password = "" <;>
      simp [exceptHandler, hp, List.countP_append, List.countP_cons,
            isEventEff, sub_countP_event]
  · rw [hfail]
    exact ⟨_, rfl⟩

/-- Witness for C7 at a concrete pass whose first received frame is
malformed. -/
theorem claim_C7_witness :
    (runIteration cfgNoPw stFresh envMalformed).2.2 = IterExit.failed ∧
    (runIteration cfgNoPw stFresh envMalformed).1.connected = false ∧
    (runIteration cfgNoPw stFresh envMalformed).2.1.countP isEventEff = 0 ∧
    (∃ pre, (runIteration cfgNoPw stFresh envMalformed).2.1 =
       pre ++ [Effect.status "Reconnecting...", Effect.sleep 5]) ∧
    ((runLoop cfgNoPw stFresh [envMalformed]).2.2 ≠ LoopExit.stopped) :=
  ⟨(claim_C7 cfgNoPw stFresh envMalformed [] [] rfl rfl (Or.inl rfl) rfl).1,
   (claim_C7 cfgNoPw stFresh envMalformed [] [] rfl rfl (Or.inl rfl) rfl).2.1,
   (claim_C7 cfgNoPw stFresh envMalformed [] [] rfl rfl (Or.inl rfl) rfl).2.2.1,
   (claim_C7 cfgNoPw stFresh envMalformed [] [] rfl rfl (Or.inl rfl) rfl).2.2.2.1,
   (claim_C7 cfgNoPw stFresh envMalformed [] [] rfl rfl (Or.inl rfl) rfl).2.2.2.2 rfl⟩

/-- C8 counterexample: the claim asserts that every call to `stop` makes the
connected flag false, so that no `send` can observe Connected after `stop`
has returned. In the code `stop` only clears the run flag and closes the
socket: on a connected state the flag stays true, and a subsequent `send`
still writes to the socket. -/
theorem claim_C8_counterexample :
    ((stop { ws_present := true, ws_open := true, connected := true,
             should_run := true, request_id := 0 } true).1.connected = true) ∧
    ((send (stop { ws_present := true, ws_open := true, connected := true,
                   should_run := true, request_id := 0 } true).1
        "ToggleRecord" true).2 =
       [Effect.sent (commandFrame "ToggleRecord")]) :=
  ⟨rfl, rfl⟩

/-- C8 amended: the connected flag becomes true only by a pass whose
handshake sends succeed (any pass ending connected reported "Connected" and
is still blocked in receive, i.e. has hit no I/O failure); every pass that
ends in the uniform handler clears the flag; a failed send clears the flag;
but `stop` leaves the connected flag exactly as it was, so a send
immediately after `stop` can still observe Connected. -/
theorem claim_C8 (cfg : Config) (st : ConnState) (env : IterEnv)
    (ty : String) (closeOk : Bool) :
    ((runIteration cfg st env).1.connected = true →
       (env.openOk = true ∧ env.identifyOk = true ∧
        (cfg.obs_password = "" ∨ env.authOk = true) ∧
        Effect.status "Connected" ∈ (runIteration cfg st env).2.1 ∧
        (runIteration cfg st env).2.2 = IterExit.blocked)) ∧
    ((runIteration cfg st env).2.2 = IterExit.failed →
       (runIteration cfg st env).1.connected = false) ∧
    (st.connected = true → (send st ty false).1.connected = false) ∧
    ((stop st closeOk).1.connected = st.connected) := by
  refine ⟨?_, fun h => (runIteration_failed_props cfg st env h).1,
          fun hc => (by simp [send, hc]),
          (by by_cases hw : st.ws_present <;> cases closeOk <;> simp [stop, hw])⟩
  intro h
  by_cases ho : env.openOk = true
  · by_cases hi : env.identifyOk = true
    · by_cases hpa : cfg.obs_password = "" ∨ env.authOk = true
      · cases hr : (recvLoop env.recvs).2 with
        | failed =>
          rw [runIteration_session_failed cfg st env ho hi hpa hr] at h
          exact absurd h (by simp [exceptHandler])
        | starved =>
          refine ⟨ho, hi, hpa, ?_, ?_⟩
          · rw [runIteration_session_blocked cfg st env ho hi hpa hr]
            simp
          · rw [runIteration_session_blocked cfg st env ho hi hpa hr]
      · push_neg at hpa
        rw [runIteration_auth_fail cfg st env ho hi hpa.1
              (by simpa using hpa.2)] at h
        exact absurd h (by simp [exceptHandler])
    · rw [runIteration_identify_fail cfg st env ho (by simpa using hi)] at h
      exact absurd h (by simp [exceptHandler])
  · rw [runIteration_open_fail cfg st env (by simpa using ho)] at h
    exact absurd h (by simp [exceptHandler])

/-- Witness for C8 at concrete inputs: a fully successful pass reported
"Connected" and is blocked in receive; a failed send on a connected state
clears the flag; `stop` preserves the flag of a connected state. -/
theorem claim_C8_witness :
    (Effect.status "Connected" ∈ (runIteration cfgNoPw stFresh envIdle).2.1 ∧
     (runIteration cfgNoPw stFresh envIdle).2.2 = IterExit.blocked) ∧
    ((send { stFresh with connected := true } "SaveReplayBuffer" false).1.connected
       = false) ∧
    ((stop { stFresh with connected := true } true).1.connected =
       ({ stFresh with connected := true } : ConnState).connected) :=
  ⟨⟨((claim_C8 cfgNoPw stFresh envIdle "SaveReplayBuffer" true).1 rfl).2.2.2.1,
    ((claim_C8 cfgNoPw stFresh envIdle "SaveReplayBuffer" true).1 rfl).2.2.2.2⟩,
   (claim_C8 cfgNoPw { stFresh with connected := true } envIdle
      "SaveReplayBuffer" true).2.2.1 rfl,
   (claim_C8 cfgNoPw { stFresh with connected := true } envIdle
      "SaveReplayBuffer" true).2.2.2⟩

/-- C9 counterexample: the claim asserts that an I/O failure while
transmitting the subscription request abandons the session. In the code
`subscribe_events` catches its own send failure and only prints, so the
session continues: on this pass the subscribe send fails, yet the event
callback for the next inbound frame still fires, and the pass only ends when
`recv` errors afterwards. -/
theorem claim_C9_counterexample :
    runIteration cfgNoPw stFresh envSubFail =
      ({ ws_present := true, ws_open := true, connected := false,
         should_run := true, request_id := 1 },
       [Effect.sent identifyFrame, Effect.status "Connected",
        Effect.sendErr (subscribeFrame 1 subscribedEvents),
        Effect.log "Failed to subscribe events:",
        Effect.event (J.str "RecordStateChanged")
          (J.obj [("outputActive", J.jbool true)]),
        Effect.status "Reconnecting...", Effect.sleep 5],
       IterExit.failed) := rfl

/-- C9 amended: on any I/O error during socket open, handshake or receive
the pass ends in the uniform handler — the connected flag is cleared and the
status sink is told "Reconnecting..." before the fixed delay — but a failure
transmitting the subscription request is caught inside `subscribe_events`
and only logged: with no receive failure the session stays connected and
blocked in receive. -/
theorem claim_C9 (cfg : Config) (st : ConnState) (env : IterEnv)
    (events : List String) :
    ((runIteration cfg st env).2.2 = IterExit.failed →
       ((runIteration cfg st env).1.connected = false ∧
        ∃ pre, (runIteration cfg st env).2.1 =
          pre ++ [Effect.status "Reconnecting...", Effect.sleep 5])) ∧
    (subscribe_events st events false =
       ({ st with request_id := st.request_id + 1 },
        [Effect.sendErr (subscribeFrame (st.request_id + 1) events),
         Effect.log "Failed to subscribe events:"])) ∧
    (env.openOk = true → env.identifyOk = true →
     (cfg.obs_password = "" ∨ env.authOk = true) →
     env.subscribeOk = false → env.recvs = [] →
       (runIteration cfg st env).2.2 = IterExit.blocked ∧
       (runIteration cfg st env).1.connected = true) := by
  refine ⟨fun h => runIteration_failed_props cfg st env h, rfl, ?_⟩
  intro ho hi hpa _ hrv
  have hr : (recvLoop env.recvs).2 = InnerExit.starved := by
    rw [hrv]; rfl
  rw [runIteration_session_blocked cfg st env ho hi hpa hr]
  exact ⟨rfl, rfl⟩

/-- Witness for C9 at concrete inputs: a pass ending in a recv error
produces the reconnect tail, and a pass whose only failure is the subscribe
send stays connected and blocked. -/
theorem claim_C9_witness :
    ((runIteration cfgNoPw stFresh envSubFail).1.connected = false ∧
     ∃ pre, (runIteration cfgNoPw stFresh envSubFail).2.1 =
       pre ++ [Effect.status "Reconnecting...", Effect.sleep 5]) ∧
    ((runIteration cfgNoPw stFresh envSubIdle).2.2 = IterExit.blocked ∧
     (runIteration cfgNoPw stFresh envSubIdle).1.connected = true) :=
  ⟨(claim_C9 cfgNoPw stFresh envSubFail subscribedEvents).1 rfl,
   (claim_C9 cfgNoPw stFresh envSubIdle subscribedEvents).2.2
     rfl rfl (Or.inl rfl) rfl rfl⟩

/-- C10: `stop` emits no effects at all (in particular it never invokes the
status callback), leaves the connected flag and the request counter
unchanged, and clears only the run flag (plus closing the socket); every
status string the worker loop ever emits is "Connected" or
"Reconnecting...", and every status string `send` ever emits is
"Disconnected". -/
theorem claim_C10 (st : ConnState) (closeOk : Bool) (cfg : Config)
    (st2 : ConnState) (envs : List IterEnv) (ty : String) (ok : Bool) :
    ((stop st closeOk).2 = [] ∧
     (stop st closeOk).1.connected = st.connected ∧
     (stop st closeOk).1.request_id = st.request_id ∧
     (stop st closeOk).1.should_run = false) ∧
    (∀ s, Effect.status s ∈ (runLoop cfg st2 envs).2.1 →
       s = "Connected" ∨ s = "Reconnecting...") ∧
    (∀ s, Effect.status s ∈ (send st ty ok).2 → s = "Disconnected") := by
  refine ⟨(by by_cases hw : st.ws_present <;> cases closeOk <;> simp [stop, hw]),
          fun s hmem => runLoop_status cfg envs st2 s hmem, ?_⟩
  intro s hmem
  by_cases hc : st.connected = true <;> cases ok <;> simp [send, hc] at hmem
  exact hmem

/-- Witness for C10 at concrete inputs: the status emitted by a failing pass
of the loop, and the status emitted by a failing send. -/
theorem claim_C10_witness :
    ("Reconnecting..." = "Connected" ∨ "Reconnecting..." = "Reconnecting...") ∧
    ("Disconnected" = "Disconnected") :=
  ⟨(claim_C10 stFresh true cfgNoPw stFresh [envOpenFail] "ToggleRecord"
      false).2.1 "Reconnecting..." (List.Mem.head _),
   (claim_C10 { stFresh with connected := true } true cfgNoPw stFresh
      [envOpenFail] "ToggleRecord" false).2.2 "Disconnected"
     (List.Mem.tail _ (List.Mem.head _))⟩

end OBSO
